import Mathlib

/-!
Shallow embedding of `hw/xbox/modchip_xenium.c` (Xenium modchip emulation):
the flash address masking/translation engine and the I/O register state
machine, with theorems checking the specification's claims against it.

C machine integers are modelled as `Nat` with explicit truncation where the
C code can truncate; a fallible C computation is modelled with `CResult`:
`assertFail` marks a fired `assert`, `noReturn` marks control flowing off
the end of a value-returning function without executing a `return`
statement (the value the caller sees is indeterminate in C).
-/

inductive CResult (α : Type) where
  | ok : α → CResult α
  | assertFail : CResult α
  | noReturn : CResult α
deriving DecidableEq, Repr

/-- One iteration of the loop body in `xenium_mask_flash_address`:
`bitval = 1 << (20 - i)` and the `switch (mask[i])` updating the local
variable `translation`; the `default` arm is `assert(false)`. -/
def maskStep (translation : Nat) (i : Nat) (c : Char) : CResult Nat :=
  let bitval := 1 <<< (20 - i)
  if c = '1' then .ok (translation ||| bitval)
  else if c = '0' then .ok (translation &&& (4294967295 ^^^ bitval))
  else if c = 'X' then .ok translation
  else .assertFail

/-- The `for (int i = 0; i < 3; i++)` loop of `xenium_mask_flash_address`:
the `.ok` value is what the local variable `translation` holds when the
loop finishes. The pattern is passed as the list of the three characters
the loop reads. -/
def maskLoopRun (translation : Nat) (i : Nat) (cs : List Char) : CResult Nat :=
  match cs with
  | [] => .ok translation
  | c :: rest =>
    match maskStep translation i c with
    | .ok t => maskLoopRun t (i + 1) rest
    | .assertFail => .assertFail
    | .noReturn => .noReturn

/-- `xenium_mask_flash_address` as written in the source: it computes
`translation` through the loop but the function body ends without a
`return` statement, so on the normal path no value is returned
(`noReturn`); a pattern character outside 0/1/X fires the assert. -/
def xenium_mask_flash_address (address : Nat) (mask : List Char) : CResult Nat :=
  match maskLoopRun address 0 mask with
  | .ok _ => .noReturn
  | .assertFail => .assertFail
  | .noReturn => .noReturn

/-- `xenium_translate_flash_address`: dispatch on `bank_control` to the
fixed pattern table; `default` is `assert(false)`. -/
def xenium_translate_flash_address (address : Nat) (bank_control : Nat) : CResult Nat :=
  match bank_control with
  | 0 => xenium_mask_flash_address address ['X', 'X', 'X']
  | 1 => xenium_mask_flash_address address ['1', '1', '0']
  | 2 => xenium_mask_flash_address address ['1', '0', 'X']
  | 3 => xenium_mask_flash_address address ['0', '0', '0']
  | 4 => xenium_mask_flash_address address ['0', '0', '1']
  | 5 => xenium_mask_flash_address address ['0', '1', '0']
  | 6 => xenium_mask_flash_address address ['0', '1', '1']
  | 7 => xenium_mask_flash_address address ['0', '0', 'X']
  | 8 => xenium_mask_flash_address address ['0', '1', 'X']
  | 9 => xenium_mask_flash_address address ['0', 'X', 'X']
  | 10 => xenium_mask_flash_address address ['1', '1', '1']
  | _ => .assertFail

/-- The mutable fields of `XeniumState` (the `ISADevice`/`MemoryRegion`
framework plumbing carries no core semantics and is omitted). `led` is an
`unsigned char`, `bank_control` an `unsigned short`, the rest C `bool`s. -/
structure XeniumState where
  sck : Bool
  cs : Bool
  mosi : Bool
  miso_1 : Bool
  miso_4 : Bool
  led : Nat
  bank_control : Nat
  recovery : Bool
deriving DecidableEq, Repr

/-- `xenium_io_write`: `addr` selects the register, `val` is the written
value. Register 0 asserts `(val >> 3) == 0` then stores `val` into `led`
(truncated to `unsigned char`); register 1 asserts bit 7 clear then sets
the SPI lines from bits 6/5/4 and `bank_control = val & 0xF`; any other
address is `assert(false)`. A C `bool` assignment makes nonzero `true`. -/
def xenium_io_write (s : XeniumState) (addr : Nat) (val : Nat) : CResult XeniumState :=
  match addr with
  | 0 =>
    if val >>> 3 = 0 then .ok { s with led := val % 256 }
    else .assertFail
  | 1 =>
    if val &&& (1 <<< 7) = 0 then
      .ok { s with sck := val &&& (1 <<< 6) != 0,
                   cs := val &&& (1 <<< 5) != 0,
                   mosi := val &&& (1 <<< 4) != 0,
                   bank_control := val &&& 0xF }
    else .assertFail
  | _ => .assertFail

/-- `xenium_io_read`: register 0 returns the fixed `0x55` identification
byte; register 1 composes `(recovery << 7) | (miso_1 << 5) | (miso_4 << 4)
| bank_control` (a C `bool` converts to 0/1 in arithmetic); any other
address is `assert(false)`. Reads do not modify the state. -/
def xenium_io_read (s : XeniumState) (addr : Nat) : CResult Nat :=
  match addr with
  | 0 => .ok 0x55
  | 1 => .ok ((s.recovery.toNat <<< 7) |||
              (s.miso_1.toNat <<< 5) |||
              (s.miso_4.toNat <<< 4) |||
              s.bank_control)
  | _ => .assertFail

/-- The device-defaults part of `xenium_realize`: `bank_control = 1`,
`recovery = 1` (C nonzero-to-bool gives `true`), `led = 1`. The other
fields are whatever they were before (the framework zero-initializes the
instance, but `xenium_realize` itself only writes these three). -/
def xenium_realize (s : XeniumState) : XeniumState :=
  { s with bank_control := 1, recovery := true, led := 1 }

/-- A single bus access to the device: a register write or a register
read. -/
inductive XeniumOp where
  | write (addr : Nat) (val : Nat)
  | read (addr : Nat)
deriving DecidableEq, Repr

/-- Effect of one bus access on the device state: reads leave the state
unchanged; a write updates the state when accepted, and a write whose
assert fires aborts the process, so no modified state is ever observed
(modelled as leaving the state unchanged). -/
def xenium_step (s : XeniumState) (op : XeniumOp) : XeniumState :=
  match op with
  | .read _ => s
  | .write a v =>
    match xenium_io_write s a v with
    | .ok s2 => s2
    | .assertFail => s
    | .noReturn => s

/-- Run a sequence of bus accesses from a starting state. -/
def xenium_run (s : XeniumState) (ops : List XeniumOp) : XeniumState :=
  ops.foldl xenium_step s

/-- A concrete device state used to instantiate universally quantified
theorems: the state right after `xenium_realize` on a zeroed instance. -/
def someState : XeniumState :=
  xenium_realize ⟨false, false, false, false, false, 0, 0, false⟩

/-! ## Helper lemmas (shared) -/

/-- The C idiom `val & (1 << n)` assigned to a `bool` tests bit `n`. -/
theorem and_shift_testBit (v n : Nat) : (v &&& (1 <<< n) != 0) = v.testBit n := by
  rw [Nat.one_shiftLeft, Nat.and_two_pow]
  cases h : v.testBit n <;> simp [h, Nat.two_pow_pos]

/-- Bank codes 11-15 hit the `default: assert(false)` arm of
`xenium_translate_flash_address`. -/
theorem translate_undefined_aux (a b : Nat) (h1 : 11 ≤ b) (h2 : b ≤ 15) :
    xenium_translate_flash_address a b = CResult.assertFail := by
  interval_cases b <;> rfl

/-- A single accepted or rejected bus access keeps `bank_control` below 16. -/
theorem bank_step (s : XeniumState) (op : XeniumOp)
    (h : s.bank_control < 16) : (xenium_step s op).bank_control < 16 := by
  cases op with
  | read a => exact h
  | write a v =>
    match a with
    | 0 =>
      by_cases hc : v >>> 3 = 0 <;> simp [xenium_step, xenium_io_write, hc] <;> omega
    | 1 =>
      by_cases hc : v &&& 128 = 0 <;> simp [xenium_step, xenium_io_write, hc] <;>
        first
        | exact Nat.and_le_right
        | exact Nat.lt_succ_of_le Nat.and_le_right
        | omega
    | (n + 2) =>
      simp [xenium_step, xenium_io_write]
      omega

/-- Any sequence of bus accesses keeps `bank_control` below 16. -/
theorem bank_run (s : XeniumState) (ops : List XeniumOp)
    (h : s.bank_control < 16) : (xenium_run s ops).bank_control < 16 := by
  induction ops generalizing s with
  | nil => exact h
  | cons op rest ih => exact ih _ (bank_step s op h)

/-- Arithmetic core of the register-1 read composition: with `bank < 16`
the OR packs `bank` into bits 3-0 and leaves bit 6 clear. -/
theorem read1_bits_aux (r m1 m4 : Bool) (bank : Nat) (h : bank < 16) :
    ((r.toNat <<< 7 ||| m1.toNat <<< 5 ||| m4.toNat <<< 4 ||| bank) &&& 15 = bank) ∧
    (r.toNat <<< 7 ||| m1.toNat <<< 5 ||| m4.toNat <<< 4 ||| bank).testBit 6 = false := by
  cases r <;> cases m1 <;> cases m4 <;> interval_cases bank <;> exact ⟨by decide, by decide⟩

/-- A register-1 read on a state with `bank_control < 16` yields a byte
carrying `bank_control` exactly in bits 3-0 and a clear bit 6. -/
theorem read1_bits (s : XeniumState) (h : s.bank_control < 16) :
    ∃ v, xenium_io_read s 1 = CResult.ok v ∧
      v &&& 15 = s.bank_control ∧ v.testBit 6 = false :=
  ⟨_, rfl, read1_bits_aux s.recovery s.miso_1 s.miso_4 s.bank_control h⟩

/-! ## Claim theorems -/

/-- C1: for every address and every 3-character pattern over 0/1/X, the
loop of `xenium_mask_flash_address` does compute the transformed address
into its local `translation` variable, but the function body ends without
a `return` statement, so on every normal path the function yields no
value (`noReturn`) instead of the transformed address the claim
requires. -/
theorem mask_flash_address_never_returns_value (address : Nat) (p0 p1 p2 : Char)
    (h0 : p0 = '0' ∨ p0 = '1' ∨ p0 = 'X')
    (h1 : p1 = '0' ∨ p1 = '1' ∨ p1 = 'X')
    (h2 : p2 = '0' ∨ p2 = '1' ∨ p2 = 'X') :
    (∃ t, maskLoopRun address 0 [p0, p1, p2] = CResult.ok t) ∧
    xenium_mask_flash_address address [p0, p1, p2] = CResult.noReturn := by
  obtain rfl | rfl | rfl := h0 <;> obtain rfl | rfl | rfl := h1 <;>
    obtain rfl | rfl | rfl := h2 <;> exact ⟨⟨_, rfl⟩, rfl⟩

/-- C1 witness: at address 0 with the loader pattern "110", the loop
computes 0x180000 (bits 20 and 19 set) yet the function returns no
value. -/
theorem mask_flash_address_never_returns_value_witness :
    maskLoopRun 0 0 ['1', '1', '0'] = CResult.ok 1572864 ∧
    xenium_mask_flash_address 0 ['1', '1', '0'] = CResult.noReturn :=
  ⟨by decide,
   (mask_flash_address_never_returns_value 0 '1' '1' '0'
     (by decide) (by decide) (by decide)).2⟩

/-- C2: for every address and every bank code 0-10,
`xenium_translate_flash_address` returns the result of the (value-less)
masking function, hence yields no address at all (`noReturn`) rather
than the input with bits 20-18 rewritten per the bank's pattern. -/
theorem translate_flash_address_no_value (address bank : Nat) (h : bank ≤ 10) :
    xenium_translate_flash_address address bank = CResult.noReturn := by
  interval_cases bank <;> rfl

/-- C2 witness: translating address 0 under bank 1 yields no value. -/
theorem translate_flash_address_no_value_witness :
    xenium_translate_flash_address 0 1 = CResult.noReturn :=
  translate_flash_address_no_value 0 1 (by decide)

/-- C3: for every address, translation with a bank code in 11-15 hits the
`default: assert(false)` arm: a defined fatal error, and in particular
never an `ok` address. -/
theorem translate_flash_address_undefined_bank_fatal (address bank : Nat)
    (h1 : 11 ≤ bank) (h2 : bank ≤ 15) :
    xenium_translate_flash_address address bank = CResult.assertFail :=
  translate_undefined_aux address bank h1 h2

/-- C3 witness: translating address 0 under bank 11 asserts. -/
theorem translate_flash_address_undefined_bank_fatal_witness :
    xenium_translate_flash_address 0 11 = CResult.assertFail :=
  translate_flash_address_undefined_bank_fatal 0 11 (by decide) (by decide)

/-- C4: a register-0 write of a byte `v` is accepted and stores `v` into
`led` exactly when `v >> 3 == 0`, which for a byte is exactly "bits 3-7
all zero"; otherwise the assert fires and the write is rejected. -/
theorem io_write_reg0_led (s : XeniumState) (v : Nat) (hv : v < 256) :
    (v >>> 3 = 0 ↔ ∀ i < 8, 3 ≤ i → v.testBit i = false) ∧
    (v >>> 3 = 0 → xenium_io_write s 0 v = CResult.ok { s with led := v }) ∧
    (v >>> 3 ≠ 0 → xenium_io_write s 0 v = CResult.assertFail) := by
  refine ⟨?_, ?_, ?_⟩
  · revert hv; revert v
    set_option maxRecDepth 4000 in decide
  · intro h
    have h8 : v < 8 := by rw [Nat.shiftRight_eq_div_pow] at h; omega
    simp [xenium_io_write, h, Nat.mod_eq_of_lt (by omega : v < 256)]
  · intro h
    simp [xenium_io_write, h]

/-- C4 witness: writing 5 to register 0 stores 5 into `led`; writing 200
(bit 7 and bit 6 set) is rejected. -/
theorem io_write_reg0_led_witness :
    xenium_io_write someState 0 5 = CResult.ok { someState with led := 5 } ∧
    xenium_io_write someState 0 200 = CResult.assertFail :=
  ⟨(io_write_reg0_led someState 5 (by decide)).2.1 (by decide),
   (io_write_reg0_led someState 200 (by decide)).2.2 (by decide)⟩

/-- C5: a register-1 write asserts exactly when bit 7 of the value is
set; when accepted it stores bit 6 into `sck`, bit 5 into `cs`, bit 4
into `mosi` and the low nibble into `bank_control`, with no range check
on the nibble — codes 11-15 are stored as written and only fault later,
when a translation is requested. -/
theorem io_write_reg1_fields (s : XeniumState) (v : Nat) :
    (v.testBit 7 = true → xenium_io_write s 1 v = CResult.assertFail) ∧
    (v.testBit 7 = false → xenium_io_write s 1 v =
      CResult.ok { s with sck := v.testBit 6, cs := v.testBit 5,
                          mosi := v.testBit 4, bank_control := v &&& 15 }) ∧
    (∀ a b, 11 ≤ b → b ≤ 15 → xenium_translate_flash_address a b = CResult.assertFail) := by
  refine ⟨?_, ?_, translate_undefined_aux⟩
  · intro h
    rw [← and_shift_testBit] at h
    have hne : ¬ v &&& 128 = 0 := by simpa using h
    simp [xenium_io_write, hne]
  · intro h
    rw [← and_shift_testBit] at h
    have heq : v &&& 128 = 0 := by simpa using h
    simp [xenium_io_write, heq, ← and_shift_testBit]

/-- C5 witness: writing 0x4B (bit 6 set, low nibble 11) to register 1 is
accepted, stores the out-of-range bank code 11, and translation under
bank 11 then asserts; writing 0x80 is rejected. -/
theorem io_write_reg1_fields_witness :
    xenium_io_write someState 1 75 =
      CResult.ok { someState with sck := true, cs := false, mosi := false,
                                  bank_control := 11 } ∧
    xenium_translate_flash_address 0 11 = CResult.assertFail ∧
    xenium_io_write someState 1 128 = CResult.assertFail := by
  refine ⟨?_, (io_write_reg1_fields someState 75).2.2 0 11 (by decide) (by decide),
          (io_write_reg1_fields someState 128).1 (by decide)⟩
  rw [(io_write_reg1_fields someState 75).2.1 (by decide)]
  decide

/-- C6: reading register 0 yields the fixed identification byte 0x55 in
every device state — in particular in any state reachable by a run of bus
accesses — and never reflects `led`. -/
theorem io_read_reg0_const (s : XeniumState) (ops : List XeniumOp) :
    xenium_io_read s 0 = CResult.ok 0x55 ∧
    xenium_io_read (xenium_run s ops) 0 = CResult.ok 0x55 :=
  ⟨rfl, rfl⟩

/-- C7: reading register 1 yields exactly
`(recovery << 7) | (miso_1 << 5) | (miso_4 << 4) | bank_control`; on the
post-attach state after writing bank code 5 to register 1 (recovery
true, both data-out lines false) the read yields 0x85. -/
theorem io_read_reg1_compose (s : XeniumState) :
    xenium_io_read s 1 =
      CResult.ok ((s.recovery.toNat <<< 7) ||| (s.miso_1.toNat <<< 5) |||
                  (s.miso_4.toNat <<< 4) ||| s.bank_control) ∧
    xenium_io_read (xenium_step someState (XeniumOp.write 1 5)) 1 = CResult.ok 0x85 :=
  ⟨rfl, by decide⟩

/-- C8: `xenium_realize` initializes the register file with
`bank_control = 1`, `recovery = true` and `led = 1`, whatever the prior
field contents. -/
theorem realize_defaults (s : XeniumState) :
    (xenium_realize s).bank_control = 1 ∧ (xenium_realize s).recovery = true ∧
    (xenium_realize s).led = 1 :=
  ⟨rfl, rfl, rfl⟩

/-- C9: frame effect of accepted writes — a register-1 write leaves
`led`, `recovery`, `miso_1`, `miso_4` unchanged, and a register-0 write
leaves every field except `led` unchanged. -/
theorem io_write_frame (s s2 : XeniumState) (v : Nat) :
    (xenium_io_write s 1 v = CResult.ok s2 →
      s2.led = s.led ∧ s2.recovery = s.recovery ∧ s2.miso_1 = s.miso_1 ∧
      s2.miso_4 = s.miso_4) ∧
    (xenium_io_write s 0 v = CResult.ok s2 →
      s2.sck = s.sck ∧ s2.cs = s.cs ∧ s2.mosi = s.mosi ∧ s2.miso_1 = s.miso_1 ∧
      s2.miso_4 = s.miso_4 ∧ s2.bank_control = s.bank_control ∧
      s2.recovery = s.recovery) := by
  constructor
  · intro h
    by_cases hc : v &&& 128 = 0
    · simp only [xenium_io_write] at h
      rw [if_pos (show v &&& 1 <<< 7 = 0 from hc)] at h
      cases h
      simp
    · simp [xenium_io_write, hc] at h
  · intro h
    by_cases hc : v >>> 3 = 0
    · simp only [xenium_io_write] at h
      rw [if_pos hc] at h
      cases h
      simp
    · simp [xenium_io_write, hc] at h

/-- C9 witness: the accepted register-1 write of 75 and register-0 write
of 5 on the post-attach state change nothing outside their claimed
footprints. -/
theorem io_write_frame_witness :
    ((⟨true, false, false, false, false, 1, 11, true⟩ : XeniumState).led = someState.led ∧
      (⟨true, false, false, false, false, 1, 11, true⟩ : XeniumState).recovery = someState.recovery ∧
      (⟨true, false, false, false, false, 1, 11, true⟩ : XeniumState).miso_1 = someState.miso_1 ∧
      (⟨true, false, false, false, false, 1, 11, true⟩ : XeniumState).miso_4 = someState.miso_4) ∧
    ((⟨false, false, false, false, false, 5, 1, true⟩ : XeniumState).sck = someState.sck ∧
      (⟨false, false, false, false, false, 5, 1, true⟩ : XeniumState).cs = someState.cs ∧
      (⟨false, false, false, false, false, 5, 1, true⟩ : XeniumState).mosi = someState.mosi ∧
      (⟨false, false, false, false, false, 5, 1, true⟩ : XeniumState).miso_1 = someState.miso_1 ∧
      (⟨false, false, false, false, false, 5, 1, true⟩ : XeniumState).miso_4 = someState.miso_4 ∧
      (⟨false, false, false, false, false, 5, 1, true⟩ : XeniumState).bank_control = someState.bank_control ∧
      (⟨false, false, false, false, false, 5, 1, true⟩ : XeniumState).recovery = someState.recovery) :=
  ⟨(io_write_frame someState ⟨true, false, false, false, false, 1, 11, true⟩ 75).1 (by decide),
   (io_write_frame someState ⟨false, false, false, false, false, 5, 1, true⟩ 5).2 (by decide)⟩

/-- C10: starting from the attach-time defaults, after any sequence of
bus accesses `bank_control` stays below 16, and a register-1 read on the
resulting state yields a byte whose low nibble is exactly `bank_control`
and whose bit 6 is zero. -/
theorem run_bank_control_invariant (s0 : XeniumState) (ops : List XeniumOp) :
    (xenium_run (xenium_realize s0) ops).bank_control < 16 ∧
    ∃ v, xenium_io_read (xenium_run (xenium_realize s0) ops) 1 = CResult.ok v ∧
      v &&& 15 = (xenium_run (xenium_realize s0) ops).bank_control ∧
      v.testBit 6 = false := by
  have hb := bank_run (xenium_realize s0) ops (by simp [xenium_realize])
  exact ⟨hb, read1_bits _ hb⟩
